import Mathlib

/-!
Verification development for the labgrid-ui connection/session core.

The definitions below are a shallow embedding of the Rust sources:
* `crates/core/src/grpc/types.rs` — domain types and wire conversions,
* `crates/core/src/grpc/error.rs` — the client error taxonomy,
* `crates/ui/src/connection.rs` — the connection session state machine.

Machine integers (`u64`) are modelled as `Nat` with explicit saturation at
`2^64 - 1` where the source saturates; `f64` payloads are carried as opaque
bit patterns (the code never computes with them); Rust `HashMap`s are
modelled as association lists (conversions are element-wise in both).
-/

namespace LabgridUI

/-- Opaque carrier for `f64` payloads: the code only moves them around,
never computes with them, so the bit pattern is all that matters. -/
structure F64 where
  bits : Nat
deriving DecidableEq, Repr

/-- `u64::MAX`, the saturation bound of `u64::saturating_add`. -/
def U64_MAX : Nat := 2 ^ 64 - 1

/-- Three-way comparison on `Nat`, the usual `Ord` semantics. -/
def natCmp (a b : Nat) : Ordering :=
  if a < b then .lt else if a = b then .eq else .gt

/-- Modelled from the external `numeric_sort` crate used by
`Path::numeric_cmp` and `ResourceMatch::numeric_cmp`: a string is split
into maximal digit runs (compared by numeric value) and remaining single
characters (compared by code point), a numeric segment ordering before a
textual one. -/
inductive NumericSeg where
  | num (val : Nat)
  | ch (c : Char)
deriving DecidableEq, Repr

mutual

/-- Tokenizer of the numeric-sort model: splits a character list into
`NumericSeg`s, collapsing maximal digit runs into their value. -/
def numericTokenize : List Char → List NumericSeg
  | [] => []
  | c :: rest =>
    if c.isDigit then numericTokenizeNum (c.toNat - 48) rest
    else .ch c :: numericTokenize rest

/-- Continuation of `numericTokenize` inside a digit run, with the value
accumulated so far. -/
def numericTokenizeNum (acc : Nat) : List Char → List NumericSeg
  | [] => [.num acc]
  | c :: rest =>
    if c.isDigit then numericTokenizeNum (acc * 10 + (c.toNat - 48)) rest
    else .num acc :: .ch c :: numericTokenize rest

end

/-- Comparison of single numeric-sort segments. -/
def segCmp : NumericSeg → NumericSeg → Ordering
  | .num a, .num b => natCmp a b
  | .num _, .ch _ => .lt
  | .ch _, .num _ => .gt
  | .ch a, .ch b => natCmp a.toNat b.toNat

/-- Lexicographic comparison of segment lists. -/
def segsCmp : List NumericSeg → List NumericSeg → Ordering
  | [], [] => .eq
  | [], _ :: _ => .lt
  | _ :: _, [] => .gt
  | a :: as, b :: bs =>
    match segCmp a b with
    | .eq => segsCmp as bs
    | o => o

/-- Model of `numeric_sort::cmp` on strings. -/
def numeric_sort_cmp (s t : String) : Ordering :=
  segsCmp (numericTokenize s.data) (numericTokenize t.data)

/-- `Path` from `crates/core/src/grpc/types.rs`: identifies a resource. -/
structure Path where
  exporter_name : Option String
  group_name : String
  resource_name : String
deriving DecidableEq, Repr

/-- `Path::numeric_cmp` from `crates/core/src/grpc/types.rs`. -/
def Path.numeric_cmp (self other : Path) : Ordering :=
  let name_ord :=
    match self.exporter_name, other.exporter_name with
    | some first, some second => numeric_sort_cmp first second
    | some _, none => .gt
    | none, some _ => .lt
    | none, none => .eq
  if name_ord ≠ .eq then name_ord
  else
    let group_ord := numeric_sort_cmp self.group_name other.group_name
    if group_ord ≠ .eq then group_ord
    else numeric_sort_cmp self.resource_name other.resource_name

example : numeric_sort_cmp "r2" "r10" = .lt := by decide
example : numeric_sort_cmp "a" "b" = .lt := by decide
example : Path.numeric_cmp ⟨none, "g", "r"⟩ ⟨some "a", "g", "r"⟩ = .lt := by decide

/-- `ConversionError` from `crates/core/src/grpc/types.rs`. -/
structure ConversionError where
  msg : String
deriving DecidableEq, Repr

/-- `MapValue` from `crates/core/src/grpc/types.rs`: a typed map value,
recursively allowing arrays. -/
inductive MapValue where
  | bool (b : Bool)
  | int (i : Int)
  | uint (n : Nat)
  | float (f : F64)
  | string (s : String)
  | array (values : List MapValue)
deriving Repr

/-- `Resource` from `crates/core/src/grpc/types.rs`; the two `HashMap`s are
modelled as association lists. -/
structure Resource where
  path : Path
  cls : String
  params : List (String × MapValue)
  extra : List (String × MapValue)
  acquired : String
  available : Bool
deriving Repr

/-- `ResourceMatch` from `crates/core/src/grpc/types.rs`. -/
structure ResourceMatch where
  exporter : String
  group : String
  cls : String
  name : Option String
  rename : Option String
deriving DecidableEq, Repr

/-- `Place` from `crates/core/src/grpc/types.rs`; `HashMap` tags modelled as
an association list. -/
structure Place where
  name : String
  aliases : List String
  comment : String
  tags : List (String × String)
  «matches» : List ResourceMatch
  acquired : Option String
  acquired_resources : List String
  allowed : List String
  created : F64
  changed : F64
  reservation : Option String
deriving DecidableEq, Repr

/-- `Filter` from `crates/core/src/grpc/types.rs` (string-to-string map). -/
structure Filter where
  filter : List (String × String)
deriving DecidableEq, Repr

/-- `Reservation` from `crates/core/src/grpc/types.rs`. -/
structure Reservation where
  owner : String
  token : String
  state : Int
  prio : F64
  filters : List (String × Filter)
  allocations : List (String × String)
  created : F64
  timeout : F64
deriving DecidableEq, Repr

/-- `Sync` from `crates/core/src/grpc/types.rs`: the sync frame carrying a
`u64` id. -/
structure Sync where
  id : Nat
deriving DecidableEq, Repr

/-- `StartupDone` from `crates/core/src/grpc/types.rs`. -/
structure StartupDone where
  version : String
  name : String
deriving DecidableEq, Repr

/-- `SubscribeKind` from `crates/core/src/grpc/types.rs`. -/
inductive SubscribeKind where
  | AllPlaces (b : Bool)
  | AllResources (b : Bool)
deriving DecidableEq, Repr

/-- `Subscribe` from `crates/core/src/grpc/types.rs`. -/
structure Subscribe where
  is_unsubscribe : Option Bool
  kind : SubscribeKind
deriving DecidableEq, Repr

/-- `ClientInMsg` from `crates/core/src/grpc/types.rs`: outbound frames on
the duplex client stream. -/
inductive ClientInMsg where
  | Sync (s : Sync)
  | StartupDone (s : StartupDone)
  | Subscribe (s : Subscribe)
deriving DecidableEq, Repr

/-- `UpdateResponse` from `crates/core/src/grpc/types.rs`: one push update
inside an inbound frame. -/
inductive UpdateResponse where
  | Resource (r : Resource)
  | DeleteResource (p : Path)
  | Place (p : Place)
  | DeletePlace (name : String)
deriving Repr

/-- `ClientOutMsg` from `crates/core/src/grpc/types.rs`: one converted
inbound frame of the duplex stream. -/
structure ClientOutMsg where
  sync : Option Sync
  updates : List UpdateResponse
deriving Repr

/- Wire (protobuf-generated) types, as used by the conversions in
`crates/core/src/grpc/types.rs`. -/

/-- `proto::resource::Path`. -/
structure ProtoPath where
  exporter_name : Option String
  group_name : String
  resource_name : String
deriving DecidableEq, Repr

mutual

/-- `proto::MapValue`: a message whose oneof `kind` may be absent. -/
inductive ProtoMapValue where
  | mk (kind : Option ProtoMapValueKind)

/-- `proto::map_value::Kind`: the oneof payload of `proto::MapValue`. -/
inductive ProtoMapValueKind where
  | BoolValue (b : Bool)
  | IntValue (i : Int)
  | UintValue (n : Nat)
  | FloatValue (f : F64)
  | StringValue (s : String)
  | ArrayValue (a : ProtoMapValueArray)

/-- `proto::MapValueArray`. -/
inductive ProtoMapValueArray where
  | mk (values : List ProtoMapValue)

end

/-- Field accessor for `ProtoMapValue.kind`. -/
def ProtoMapValue.kind : ProtoMapValue → Option ProtoMapValueKind
  | .mk k => k

/-- `proto::Resource`. -/
structure ProtoResource where
  path : Option ProtoPath
  cls : String
  params : List (String × ProtoMapValue)
  extra : List (String × ProtoMapValue)
  acquired : String
  avail : Bool

/-- `proto::ResourceMatch`. -/
structure ProtoResourceMatch where
  exporter : String
  group : String
  cls : String
  name : Option String
  rename : Option String
deriving DecidableEq, Repr

/-- `proto::Place`. -/
structure ProtoPlace where
  name : String
  aliases : List String
  comment : String
  tags : List (String × String)
  «matches» : List ProtoResourceMatch
  acquired : Option String
  acquired_resources : List String
  allowed : List String
  created : F64
  changed : F64
  reservation : Option String
deriving DecidableEq, Repr

/-- `proto::Sync`. -/
structure ProtoSync where
  id : Nat
deriving DecidableEq, Repr

/-- `proto::update_response::Kind`: the oneof payload of
`proto::UpdateResponse`. -/
inductive ProtoUpdateResponseKind where
  | Resource (r : ProtoResource)
  | DelResource (p : ProtoPath)
  | Place (p : ProtoPlace)
  | DelPlace (name : String)

/-- `proto::UpdateResponse`: a message whose oneof `kind` may be absent. -/
structure ProtoUpdateResponse where
  kind : Option ProtoUpdateResponseKind

/-- `proto::ClientOutMessage`. -/
structure ProtoClientOutMessage where
  sync : Option ProtoSync
  updates : List ProtoUpdateResponse

/-- Element-wise fallible map over a list, mirroring Rust
`iter().map(...).collect::<Result<Vec<_>, _>>()`: the first error aborts
the whole collection. -/
def mapExcept {α β ε : Type} (f : α → Except ε β) : List α → Except ε (List β)
  | [] => .ok []
  | x :: xs =>
    match f x with
    | .error e => .error e
    | .ok y =>
      match mapExcept f xs with
      | .error e => .error e
      | .ok ys => .ok (y :: ys)

mutual

/-- `impl TryFrom<proto::MapValue> for MapValue` from
`crates/core/src/grpc/types.rs`. -/
def MapValue.tryFrom : ProtoMapValue → Except ConversionError MapValue
  | .mk none => .error ⟨"MapValue kind is None"⟩
  | .mk (some k) =>
    match k with
    | .BoolValue b => .ok (.bool b)
    | .IntValue i => .ok (.int i)
    | .UintValue n => .ok (.uint n)
    | .FloatValue f => .ok (.float f)
    | .StringValue s => .ok (.string s)
    | .ArrayValue (.mk vs) =>
      match MapValue.listTryFrom vs with
      | .error e => .error e
      | .ok l => .ok (.array l)

/-- Element-wise conversion of a wire `MapValueArray` payload, mirroring
the `collect::<Result<Vec<MapValue>, _>>` in the source. -/
def MapValue.listTryFrom : List ProtoMapValue → Except ConversionError (List MapValue)
  | [] => .ok []
  | v :: vs =>
    match MapValue.tryFrom v with
    | .error e => .error e
    | .ok x =>
      match MapValue.listTryFrom vs with
      | .error e => .error e
      | .ok xs => .ok (x :: xs)

end

mutual

/-- `impl TryFrom<MapValue> for proto::MapValue` from
`crates/core/src/grpc/types.rs`. -/
def MapValue.toProto : MapValue → ProtoMapValue
  | .bool b => .mk (some (.BoolValue b))
  | .int i => .mk (some (.IntValue i))
  | .uint n => .mk (some (.UintValue n))
  | .float f => .mk (some (.FloatValue f))
  | .string s => .mk (some (.StringValue s))
  | .array vs => .mk (some (.ArrayValue (.mk (MapValue.listToProto vs))))

/-- Element-wise conversion of an array payload to wire form. -/
def MapValue.listToProto : List MapValue → List ProtoMapValue
  | [] => []
  | v :: vs => MapValue.toProto v :: MapValue.listToProto vs

end

/-- `impl TryFrom<proto::resource::Path> for Path` (infallible in effect). -/
def Path.tryFrom (value : ProtoPath) : Except ConversionError Path :=
  .ok ⟨value.exporter_name, value.group_name, value.resource_name⟩

/-- `impl TryFrom<Path> for proto::resource::Path`. -/
def Path.toProto (value : Path) : ProtoPath :=
  ⟨value.exporter_name, value.group_name, value.resource_name⟩

/-- `impl TryFrom<proto::Resource> for Resource` from
`crates/core/src/grpc/types.rs`: requires the path to be present, and
filters out `params`/`extra` entries whose `kind` is absent before
converting the remaining ones element-wise. -/
def Resource.tryFrom (value : ProtoResource) : Except ConversionError Resource :=
  match value.path with
  | none => .error ⟨"Resoure path is None"⟩
  | some p =>
    match Path.tryFrom p with
    | .error e => .error e
    | .ok path =>
      match mapExcept (fun q => match MapValue.tryFrom q.2 with
          | .error e => .error e
          | .ok v => .ok (q.1, v))
          (value.params.filter (fun q => q.2.kind.isSome)) with
      | .error e => .error e
      | .ok params =>
        match mapExcept (fun q => match MapValue.tryFrom q.2 with
            | .error e => .error e
            | .ok v => .ok (q.1, v))
            (value.extra.filter (fun q => q.2.kind.isSome)) with
        | .error e => .error e
        | .ok extra =>
          .ok ⟨path, value.cls, params, extra, value.acquired, value.avail⟩

/-- `impl TryFrom<Resource> for proto::Resource` from
`crates/core/src/grpc/types.rs`. -/
def Resource.toProto (value : Resource) : ProtoResource :=
  { path := some (Path.toProto value.path)
    cls := value.cls
    params := value.params.map (fun q => (q.1, MapValue.toProto q.2))
    extra := value.extra.map (fun q => (q.1, MapValue.toProto q.2))
    acquired := value.acquired
    avail := value.available }

/-- `impl TryFrom<proto::ResourceMatch> for ResourceMatch` (infallible in
effect). -/
def ResourceMatch.tryFrom (value : ProtoResourceMatch) : Except ConversionError ResourceMatch :=
  .ok ⟨value.exporter, value.group, value.cls, value.name, value.rename⟩

/-- `impl TryFrom<proto::Place> for Place` from
`crates/core/src/grpc/types.rs`: converts matches element-wise and
normalizes an empty `acquired` string to `None`. -/
def Place.tryFrom (value : ProtoPlace) : Except ConversionError Place :=
  match mapExcept ResourceMatch.tryFrom value.«matches» with
  | .error e => .error e
  | .ok ms =>
    .ok { name := value.name
          aliases := value.aliases
          comment := value.comment
          tags := value.tags
          «matches» := ms
          acquired := value.acquired.filter (fun s => !s.isEmpty)
          acquired_resources := value.acquired_resources
          allowed := value.allowed
          created := value.created
          changed := value.changed
          reservation := value.reservation }

/-- `impl TryFrom<proto::Sync> for Sync`. -/
def Sync.tryFrom (value : ProtoSync) : Except ConversionError Sync :=
  .ok ⟨value.id⟩

/-- `impl TryFrom<proto::UpdateResponse> for UpdateResponse` from
`crates/core/src/grpc/types.rs`: fails when the oneof `kind` is absent,
otherwise converts the payload. -/
def UpdateResponse.tryFrom (value : ProtoUpdateResponse) : Except ConversionError UpdateResponse :=
  match value.kind with
  | none => .error ⟨"UpdateResponse kind is None"⟩
  | some k =>
    match k with
    | .Resource r =>
      match Resource.tryFrom r with
      | .error e => .error e
      | .ok v => .ok (.Resource v)
    | .DelResource p =>
      match Path.tryFrom p with
      | .error e => .error e
      | .ok v => .ok (.DeleteResource v)
    | .Place p =>
      match Place.tryFrom p with
      | .error e => .error e
      | .ok v => .ok (.Place v)
    | .DelPlace n => .ok (.DeletePlace n)

/-- `impl TryFrom<proto::ClientOutMessage> for ClientOutMsg` from
`crates/core/src/grpc/types.rs`: converts the optional sync echo and the
update list element-wise; any failing element fails the whole frame. -/
def ClientOutMsg.tryFrom (value : ProtoClientOutMessage) : Except ConversionError ClientOutMsg :=
  let syncRes : Except ConversionError (Option Sync) :=
    match value.sync with
    | none => .ok none
    | some s =>
      match Sync.tryFrom s with
      | .error e => .error e
      | .ok v => .ok (some v)
  match syncRes with
  | .error e => .error e
  | .ok sync =>
    match mapExcept UpdateResponse.tryFrom value.updates with
    | .error e => .error e
    | .ok updates => .ok ⟨sync, updates⟩

/- Error taxonomy, from `crates/core/src/grpc/error.rs` and the `tonic`
status codes. -/

/-- Status codes of `tonic::Code` (the gRPC status code set). -/
inductive TonicCode where
  | Ok
  | Cancelled
  | Unknown
  | InvalidArgument
  | DeadlineExceeded
  | NotFound
  | AlreadyExists
  | PermissionDenied
  | ResourceExhausted
  | FailedPrecondition
  | Aborted
  | OutOfRange
  | Unimplemented
  | Internal
  | Unavailable
  | DataLoss
  | Unauthenticated
deriving DecidableEq, Repr

/-- `GrpcClientError` from `crates/core/src/grpc/error.rs`.
`TonicTransport` carries the debug text of the transport error;
`TonicStatus` carries the status code plus the debug text of the status. -/
inductive GrpcClientError where
  | TonicTransport (detail : String)
  | TonicStatus (code : TonicCode) (detail : String)
  | MsgConversion (msg : ConversionError)
deriving DecidableEq, Repr

/-- Model of `format!("{error:?}")` debug rendering of a client error, used
for the `detailed` field of error reports. -/
def GrpcClientError.debugFmt : GrpcClientError → String
  | .TonicTransport d => "TonicTransport(" ++ d ++ ")"
  | .TonicStatus _ d => "TonicStatus(" ++ d ++ ")"
  | .MsgConversion m => "MsgConversion(" ++ m.msg ++ ")"

/-- `ErrorCriticality` from `crates/ui/src/app.rs`. -/
inductive ErrorCriticality where
  | NonCritical
  | Critical
deriving DecidableEq, Repr

/-- `ErrorReport` from `crates/ui/src/app.rs`. -/
structure ErrorReport where
  criticality : ErrorCriticality
  short : String
  detailed : String
deriving DecidableEq, Repr

/- Connection session state machine, from `crates/ui/src/connection.rs`. -/

/-- Modelled from the spec: the localized short error label produced by
`fl!("connection-msg-invalid-input")`; the localization resources are not
part of the sources, so the message is represented by its lookup key. -/
def fl_connection_msg_invalid_input : String := "connection-msg-invalid-input"

/-- `ConnectionMsg` from `crates/ui/src/connection.rs`: commands sent by
the UI to the connection subscription. -/
inductive ConnectionMsg where
  | Connect (address : String)
  | Disconnect
  | Sync
  | GetPlaces
  | AcquirePlace (name : String)
  | ReleasePlace (name : String)
  | AddPlace (name : String)
  | DeletePlace (name : String)
  | AddPlaceMatch (place_name : String) (pat : String)
  | DeletePlaceMatch (place_name : String) (pat : String)
  | AddPlaceTag (place_name : String) (tag : String × String)
  | DeletePlaceTag (place_name : String) (tag : String)
  | GetReservations
  | CancelReservation (token : String)
deriving DecidableEq, Repr

/-- `ConnectionEvent` from `crates/ui/src/connection.rs`: events produced
by the connection and sent to the UI. `ReceiveReady` carries a command
sender handle in the source, which is a runtime object and not modelled. -/
inductive ConnectionEvent where
  | ReceiveReady
  | Connected (address : String)
  | Disconnected (error : Option ErrorReport)
  | NonCriticalError (error : ErrorReport)
  | Place (p : Place)
  | DeletePlace (name : String)
  | Places (ps : List Place)
  | Resource (r : Resource)
  | DeleteResource (p : Path)
  | Reservations (rs : List Reservation)
deriving Repr

/-- Whether an event is the `ReceiveReady` startup event. -/
def ConnectionEvent.isReceiveReady : ConnectionEvent → Bool
  | .ReceiveReady => true
  | _ => false

/-- `SyncId` from `crates/ui/src/connection.rs`: an always-incrementing
`u64` synchronization id counter. -/
structure SyncId where
  id : Nat
deriving DecidableEq, Repr

/-- `impl Default for SyncId`: the counter starts at 1. -/
def SyncId.default : SyncId := ⟨1⟩

/-- `SyncId::next`: returns the current id and saturating-increments the
counter (`u64::saturating_add`). -/
def SyncId.next (s : SyncId) : Nat × SyncId :=
  (s.id, ⟨min (s.id + 1) U64_MAX⟩)

/-- `State` from `crates/ui/src/connection.rs`. The `Connected` variant
additionally holds the client and the two duplex stream halves in the
source; those are runtime handles and only the `sync_id` bookkeeping is
modelled. -/
inductive State where
  | Disconnected
  | Connected (sync_id : SyncId)
deriving DecidableEq, Repr

/-- Outcome of racing `connect(address)` against the fixed
`CONNECT_TIMEOUT` in the `tokio::select!` of `kickoff`. -/
inductive ConnectOutcome where
  | ok
  | failure (detail : String)
  | timeout
deriving DecidableEq, Repr

/-- Transport environment: the outcomes of the facade calls the session
may perform. The session task is the only caller, so one response map per
call suffices for a run. -/
structure Env where
  clientName : String
  connectOutcome : String → ConnectOutcome
  getPlaces : Except GrpcClientError (List Place)
  getReservations : Except GrpcClientError (List Reservation)
  acquirePlace : String → Except GrpcClientError Unit
  releasePlace : String → Except GrpcClientError Unit
  addPlace : String → Except GrpcClientError Unit
  deletePlace : String → Except GrpcClientError Unit
  addPlaceMatch : String → String → Except GrpcClientError Unit
  deletePlaceMatch : String → String → Except GrpcClientError Unit
  setPlaceTags : String → List (String × String) → Except GrpcClientError Unit
  cancelReservation : String → Except GrpcClientError Unit

/-- A facade/transport call performed by the session (used to state that a
step performs no network operation). -/
inductive FacadeCall where
  | connectCall (address : String)
  | getPlaces
  | getReservations
  | acquirePlace (name : String)
  | releasePlace (name : String)
  | addPlace (name : String)
  | deletePlace (name : String)
  | addPlaceMatch (place_name : String) (pat : String)
  | deletePlaceMatch (place_name : String) (pat : String)
  | setPlaceTags (place_name : String) (tags : List (String × String))
  | cancelReservation (token : String)
deriving DecidableEq, Repr

/-- One input serviced by the select loop of `kickoff`: a UI command, an
item on the inbound half of the duplex stream (either a frame or a status
error), or a tick of the periodic reservations interval. -/
inductive SessionInput where
  | cmd (m : ConnectionMsg)
  | frameOk (m : ProtoClientOutMessage)
  | frameErr (status : String)
  | tick

/-- Result of servicing one input: the events emitted to the UI in order,
the successor state, the facade calls performed, and the frames enqueued
on the outbound half of the duplex stream. -/
structure StepResult where
  events : List ConnectionEvent
  state : State
  calls : List FacadeCall
  sent : List ClientInMsg

/-- `handle_grpc_client_error` from `crates/ui/src/connection.rs`: the
error-severity classifier. Returns the emitted events and the state after
the `*state = State::Disconnected` writes of the source. -/
def handle_grpc_client_error (state : State) (error : GrpcClientError) :
    List ConnectionEvent × State :=
  match error with
  | .TonicTransport d =>
    ([.Disconnected (some ⟨.Critical, "Transport failure",
        GrpcClientError.debugFmt (.TonicTransport d)⟩)], .Disconnected)
  | .MsgConversion m =>
    ([.NonCriticalError ⟨.NonCritical, "Message conversion", m.msg⟩], state)
  | .TonicStatus code d =>
    match code with
    | .Ok => ([], state)
    | .Unavailable =>
      ([.Disconnected (some ⟨.Critical, "Non-recoverable tonic error status",
          GrpcClientError.debugFmt (.TonicStatus code d)⟩)], .Disconnected)
    | .DeadlineExceeded =>
      ([.Disconnected (some ⟨.Critical, "Non-recoverable tonic error status",
          GrpcClientError.debugFmt (.TonicStatus code d)⟩)], .Disconnected)
    | _ =>
      ([.NonCriticalError ⟨.NonCritical, "Tonic error status",
          GrpcClientError.debugFmt (.TonicStatus code d)⟩], state)

/-- `handle_out_msg` from `crates/ui/src/connection.rs`, restricted to the
event translation: each update of a converted inbound frame becomes
exactly one connection event, in order. -/
def updateEvent : UpdateResponse → ConnectionEvent
  | .Resource r => .Resource r
  | .DeleteResource p => .DeleteResource p
  | .Place p => .Place p
  | .DeletePlace n => .DeletePlace n

/-- `handle_out_msg` iterates the update list in order. -/
def handle_out_msg (msg : ClientOutMsg) : List ConnectionEvent :=
  msg.updates.map updateEvent

/-- `connect` from `crates/ui/src/connection.rs`, restricted to its pure
content: the four handshake frames enqueued (in order) on the outbound
half before the inbound half exists, and the sync id counter handed to the
new session. The client name is `hostname/username` from the environment. -/
def connect (clientName : String) : List ClientInMsg × SyncId :=
  let sync_id := SyncId.default
  let f1 := ClientInMsg.StartupDone ⟨"1", clientName⟩
  let f2 := ClientInMsg.Subscribe ⟨none, .AllPlaces true⟩
  let f3 := ClientInMsg.Subscribe ⟨none, .AllResources true⟩
  let (i, sync_id) := sync_id.next
  ([f1, f2, f3, ClientInMsg.Sync ⟨i⟩], sync_id)

/-- Model of the Rust guard `x.trim().is_empty()`: true exactly when the
string contains only whitespace (trimming both ends leaves it empty). -/
def isBlank (s : String) : Bool :=
  s.data.all Char.isWhitespace

/-- The invalid-input event emitted for an empty/whitespace-only required
string while Connected (all commands except Connect). -/
def invalidInputEvent : ConnectionEvent :=
  .NonCriticalError ⟨.NonCritical, fl_connection_msg_invalid_input,
    "Input must not be empty"⟩

/-- Servicing of a `Connect` command, shared between the `Disconnected`
and `Connected` arms of `kickoff` (both race `connect` against the
timeout with identical outcome handling, differing only in the
whitespace-rejection event, handled by the caller). -/
def stepConnectAttempt (env : Env) (_st : State) (address : String) : StepResult :=
  match env.connectOutcome address with
  | .ok =>
    let (frames, sync_id) := connect env.clientName
    { events := [.Connected address], state := .Connected sync_id
      calls := [.connectCall address], sent := frames }
  | .failure e =>
    { events := [.Disconnected (some ⟨.Critical, "Connecting failed", e⟩)]
      state := .Disconnected, calls := [.connectCall address], sent := [] }
  | .timeout =>
    { events := [.Disconnected (some ⟨.Critical,
        "Timeout reached while trying to connect", ""⟩)]
      state := .Disconnected, calls := [.connectCall address], sent := [] }

/-- Servicing of a unary facade call whose success emits no event:
routes an error through the classifier. -/
def stepUnary (st : State) (call : FacadeCall) (res : Except GrpcClientError Unit) :
    StepResult :=
  match res with
  | .ok _ => { events := [], state := st, calls := [call], sent := [] }
  | .error e =>
    let (evs, st2) := handle_grpc_client_error st e
    { events := evs, state := st2, calls := [call], sent := [] }

/-- Servicing of the `GetReservations` facade call (shared by the command,
the periodic tick and the post-cancel refresh). -/
def stepGetReservations (env : Env) (st : State) : StepResult :=
  match env.getReservations with
  | .ok rs =>
    { events := [.Reservations rs], state := st
      calls := [.getReservations], sent := [] }
  | .error e =>
    let (evs, st2) := handle_grpc_client_error st e
    { events := evs, state := st2, calls := [.getReservations], sent := [] }

/-- One iteration of the select loop of `kickoff` from
`crates/ui/src/connection.rs`: services one input in the current state. -/
def step (env : Env) (st : State) (input : SessionInput) : StepResult :=
  match st with
  | .Disconnected =>
    match input with
    | .cmd (.Connect address) =>
      if isBlank address then
        { events := [.Disconnected (some ⟨.NonCritical,
            fl_connection_msg_invalid_input, "Input must not be empty"⟩)]
          state := .Disconnected, calls := [], sent := [] }
      else stepConnectAttempt env .Disconnected address
    | .cmd _ => { events := [], state := .Disconnected, calls := [], sent := [] }
    | .frameOk _ => { events := [], state := .Disconnected, calls := [], sent := [] }
    | .frameErr _ => { events := [], state := .Disconnected, calls := [], sent := [] }
    | .tick => { events := [], state := .Disconnected, calls := [], sent := [] }
  | .Connected sync_id =>
    match input with
    | .cmd (.Connect address) =>
      if isBlank address then
        { events := [.NonCriticalError ⟨.NonCritical,
            fl_connection_msg_invalid_input, "Input: '" ++ address⟩]
          state := .Connected sync_id, calls := [], sent := [] }
      else stepConnectAttempt env (.Connected sync_id) address
    | .cmd .Disconnect =>
      { events := [.Disconnected none], state := .Disconnected
        calls := [], sent := [] }
    | .cmd .Sync =>
      let (i, sync_id) := sync_id.next
      { events := [], state := .Connected sync_id, calls := []
        sent := [ClientInMsg.Sync ⟨i⟩] }
    | .cmd .GetPlaces =>
      (match env.getPlaces with
       | .ok places =>
         { events := [.Places places], state := .Connected sync_id
           calls := [.getPlaces], sent := [] }
       | .error e =>
         let (evs, st) := handle_grpc_client_error (.Connected sync_id) e
         { events := evs, state := st, calls := [.getPlaces], sent := [] })
    | .cmd (.AcquirePlace name) =>
      if isBlank name then
        { events := [invalidInputEvent], state := .Connected sync_id
          calls := [], sent := [] }
      else stepUnary (.Connected sync_id) (.acquirePlace name) (env.acquirePlace name)
    | .cmd (.ReleasePlace name) =>
      if isBlank name then
        { events := [invalidInputEvent], state := .Connected sync_id
          calls := [], sent := [] }
      else stepUnary (.Connected sync_id) (.releasePlace name) (env.releasePlace name)
    | .cmd (.AddPlace name) =>
      if isBlank name then
        { events := [invalidInputEvent], state := .Connected sync_id
          calls := [], sent := [] }
      else stepUnary (.Connected sync_id) (.addPlace name) (env.addPlace name)
    | .cmd (.DeletePlace name) =>
      if isBlank name then
        { events := [invalidInputEvent], state := .Connected sync_id
          calls := [], sent := [] }
      else stepUnary (.Connected sync_id) (.deletePlace name) (env.deletePlace name)
    | .cmd (.AddPlaceMatch place_name pat) =>
      if isBlank place_name || isBlank pat then
        { events := [invalidInputEvent], state := .Connected sync_id
          calls := [], sent := [] }
      else stepUnary (.Connected sync_id) (.addPlaceMatch place_name pat)
        (env.addPlaceMatch place_name pat)
    | .cmd (.DeletePlaceMatch place_name pat) =>
      if isBlank place_name || isBlank pat then
        { events := [invalidInputEvent], state := .Connected sync_id
          calls := [], sent := [] }
      else stepUnary (.Connected sync_id) (.deletePlaceMatch place_name pat)
        (env.deletePlaceMatch place_name pat)
    | .cmd (.AddPlaceTag place_name tag) =>
      if isBlank place_name || isBlank tag.1 || isBlank tag.2 then
        { events := [invalidInputEvent], state := .Connected sync_id
          calls := [], sent := [] }
      else stepUnary (.Connected sync_id) (.setPlaceTags place_name [tag])
        (env.setPlaceTags place_name [tag])
    | .cmd (.DeletePlaceTag place_name tag) =>
      if isBlank place_name || isBlank tag then
        { events := [invalidInputEvent], state := .Connected sync_id
          calls := [], sent := [] }
      else stepUnary (.Connected sync_id) (.setPlaceTags place_name [(tag, "")])
        (env.setPlaceTags place_name [(tag, "")])
    | .cmd .GetReservations => stepGetReservations env (.Connected sync_id)
    | .cmd (.CancelReservation token) =>
      if isBlank token then
        { events := [invalidInputEvent], state := .Connected sync_id
          calls := [], sent := [] }
      else
        (match env.cancelReservation token with
         | .error e =>
           let (evs, st) := handle_grpc_client_error (.Connected sync_id) e
           { events := evs, state := st, calls := [.cancelReservation token]
             sent := [] }
         | .ok _ =>
           let r := stepGetReservations env (.Connected sync_id)
           { events := r.events, state := r.state
             calls := .cancelReservation token :: r.calls, sent := [] })
    | .frameOk pm =>
      (match ClientOutMsg.tryFrom pm with
       | .error _ =>
         { events := [], state := .Connected sync_id, calls := [], sent := [] }
       | .ok m =>
         { events := handle_out_msg m, state := .Connected sync_id
           calls := [], sent := [] })
    | .frameErr _ =>
      { events := [], state := .Connected sync_id, calls := [], sent := [] }
    | .tick => stepGetReservations env (.Connected sync_id)

/-- Runs the select loop over a list of inputs, collecting the emitted
events in order. -/
def run (env : Env) : State → List SessionInput → List ConnectionEvent
  | _, [] => []
  | st, i :: is =>
    let r := step env st i
    r.events ++ run env r.state is

/-- `kickoff` from `crates/ui/src/connection.rs`: emits `ReceiveReady`
once, before entering the select loop in the `Disconnected` state. -/
def kickoffTrace (env : Env) (inputs : List SessionInput) : List ConnectionEvent :=
  .ReceiveReady :: run env .Disconnected inputs

/- Comparator groundwork for the path ordering (claim C8). -/

theorem natCmp_refl (a : Nat) : natCmp a a = .eq := by
  simp [natCmp]

theorem natCmp_eq_iff {a b : Nat} : natCmp a b = .eq ↔ a = b := by
  rcases Nat.lt_trichotomy a b with h | h | h
  · have h2 : a ≠ b := by omega
    simp [natCmp, h, h2]
  · simp [natCmp, h]
  · have h1 : ¬ a < b := by omega
    have h2 : a ≠ b := by omega
    simp [natCmp, h1, h2]

theorem natCmp_lt_iff {a b : Nat} : natCmp a b = .lt ↔ a < b := by
  rcases Nat.lt_trichotomy a b with h | h | h
  · simp [natCmp, h]
  · have h1 : ¬ a < b := by omega
    simp [natCmp, h1, h]
  · have h1 : ¬ a < b := by omega
    have h2 : a ≠ b := by omega
    simp [natCmp, h1, h2]

theorem natCmp_swap (a b : Nat) : (natCmp a b).swap = natCmp b a := by
  rcases Nat.lt_trichotomy a b with h | h | h
  · have h1 : ¬ b < a := by omega
    have h2 : b ≠ a := by omega
    simp [natCmp, h, h1, h2, Ordering.swap]
  · subst h
    simp [natCmp, Ordering.swap]
  · have h1 : ¬ a < b := by omega
    have h2 : a ≠ b := by omega
    simp [natCmp, h, h1, h2, Ordering.swap]

theorem natCmp_lt_trans {a b c : Nat} (h1 : natCmp a b = .lt)
    (h2 : natCmp b c = .lt) : natCmp a c = .lt := by
  rw [natCmp_lt_iff] at *
  omega

theorem segCmp_refl (a : NumericSeg) : segCmp a a = .eq := by
  cases a <;> simp [segCmp, natCmp_refl]

theorem segCmp_swap (a b : NumericSeg) : (segCmp a b).swap = segCmp b a := by
  cases a <;> cases b <;> simp only [segCmp] <;>
    first
      | rfl
      | rw [natCmp_swap]

theorem segCmp_eq_left {a b : NumericSeg} (h : segCmp a b = .eq)
    (c : NumericSeg) : segCmp a c = segCmp b c := by
  cases a <;> cases b <;> simp [segCmp] at h <;> cases c <;>
    simp [segCmp, natCmp_eq_iff.mp h]

theorem segCmp_eq_right {b c : NumericSeg} (h : segCmp b c = .eq)
    (a : NumericSeg) : segCmp a c = segCmp a b := by
  cases b <;> cases c <;> simp [segCmp] at h <;> cases a <;>
    simp [segCmp, natCmp_eq_iff.mp h]

theorem segCmp_lt_trans {a b c : NumericSeg} (h1 : segCmp a b = .lt)
    (h2 : segCmp b c = .lt) : segCmp a c = .lt := by
  cases a <;> cases b <;> cases c <;>
    simp_all [segCmp, natCmp_lt_trans]
  all_goals exact natCmp_lt_trans h1 h2

theorem segsCmp_refl : ∀ l : List NumericSeg, segsCmp l l = .eq
  | [] => rfl
  | a :: as => by
    simp [segsCmp, segCmp_refl a, segsCmp_refl as]

theorem segsCmp_swap : ∀ xs ys : List NumericSeg,
    (segsCmp xs ys).swap = segsCmp ys xs
  | [], [] => rfl
  | [], _ :: _ => rfl
  | _ :: _, [] => rfl
  | a :: as, b :: bs => by
    have hs := segCmp_swap a b
    cases hab : segCmp a b with
    | eq =>
      rw [hab] at hs
      have hba : segCmp b a = .eq := hs.symm
      simp [segsCmp, hab, hba, segsCmp_swap as bs]
    | lt =>
      rw [hab] at hs
      have hba : segCmp b a = .gt := hs.symm
      simp [segsCmp, hab, hba, Ordering.swap]
    | gt =>
      rw [hab] at hs
      have hba : segCmp b a = .lt := hs.symm
      simp [segsCmp, hab, hba, Ordering.swap]

theorem segsCmp_eq_left : ∀ xs ys zs : List NumericSeg,
    segsCmp xs ys = .eq → segsCmp xs zs = segsCmp ys zs
  | [], [], _ => fun _ => rfl
  | [], _ :: _, _ => by simp [segsCmp]
  | _ :: _, [], _ => by simp [segsCmp]
  | a :: as, b :: bs, zs => by
    intro h
    have hab : segCmp a b = .eq := by
      cases hc : segCmp a b <;> simp [segsCmp, hc] at h <;> rfl
    have htl : segsCmp as bs = .eq := by
      simpa [segsCmp, hab] using h
    cases zs with
    | nil => simp [segsCmp]
    | cons c cs =>
      simp only [segsCmp, segCmp_eq_left hab c]
      cases hc : segCmp b c <;> simp [segsCmp_eq_left as bs cs htl]

theorem segsCmp_eq_right : ∀ xs ys zs : List NumericSeg,
    segsCmp ys zs = .eq → segsCmp xs zs = segsCmp xs ys
  | _, [], [] => fun _ => rfl
  | _, [], _ :: _ => by simp [segsCmp]
  | _, _ :: _, [] => by simp [segsCmp]
  | xs, b :: bs, c :: cs => by
    intro h
    have hbc : segCmp b c = .eq := by
      cases hc : segCmp b c <;> simp [segsCmp, hc] at h <;> rfl
    have htl : segsCmp bs cs = .eq := by
      simpa [segsCmp, hbc] using h
    cases xs with
    | nil => simp [segsCmp]
    | cons a as =>
      simp only [segsCmp, segCmp_eq_right hbc a]
      cases hc : segCmp a b <;> simp [segsCmp_eq_right as bs cs htl]

theorem segsCmp_lt_trans : ∀ xs ys zs : List NumericSeg,
    segsCmp xs ys = .lt → segsCmp ys zs = .lt → segsCmp xs zs = .lt
  | [], [], _ => by simp [segsCmp]
  | [], _ :: _, [] => by simp [segsCmp]
  | [], _ :: _, _ :: _ => by simp [segsCmp]
  | _ :: _, [], _ => by simp [segsCmp]
  | _ :: _, _ :: _, [] => by simp [segsCmp]
  | a :: as, b :: bs, c :: cs => by
    intro h1 h2
    cases hab : segCmp a b with
    | gt => simp [segsCmp, hab] at h1
    | lt =>
      cases hbc : segCmp b c with
      | gt => simp [segsCmp, hbc] at h2
      | lt => simp [segsCmp, segCmp_lt_trans hab hbc]
      | eq =>
        have hac : segCmp a c = .lt := by
          rw [segCmp_eq_right hbc a]
          exact hab
        simp [segsCmp, hac]
    | eq =>
      have h1t : segsCmp as bs = .lt := by
        simpa [segsCmp, hab] using h1
      cases hbc : segCmp b c with
      | gt => simp [segsCmp, hbc] at h2
      | lt =>
        have hac : segCmp a c = .lt := by
          rw [segCmp_eq_left hab c]
          exact hbc
        simp [segsCmp, hac]
      | eq =>
        have h2t : segsCmp bs cs = .lt := by
          simpa [segsCmp, hbc] using h2
        have hac : segCmp a c = .eq := by
          rw [segCmp_eq_left hab c]
          exact hbc
        simp [segsCmp, hac, segsCmp_lt_trans as bs cs h1t h2t]

theorem nsc_refl (s : String) : numeric_sort_cmp s s = .eq :=
  segsCmp_refl _

theorem nsc_swap (s t : String) :
    (numeric_sort_cmp s t).swap = numeric_sort_cmp t s :=
  segsCmp_swap _ _

theorem nsc_eq_left {s t : String} (h : numeric_sort_cmp s t = .eq)
    (u : String) : numeric_sort_cmp s u = numeric_sort_cmp t u :=
  segsCmp_eq_left _ _ _ h

theorem nsc_eq_right {t u : String} (h : numeric_sort_cmp t u = .eq)
    (s : String) : numeric_sort_cmp s u = numeric_sort_cmp s t :=
  segsCmp_eq_right _ _ _ h

theorem nsc_lt_trans {s t u : String} (h1 : numeric_sort_cmp s t = .lt)
    (h2 : numeric_sort_cmp t u = .lt) : numeric_sort_cmp s u = .lt :=
  segsCmp_lt_trans _ _ _ h1 h2

/-- The exporter-name comparison inlined in `Path::numeric_cmp`: `None`
orders before any `Some`. -/
def expNameCmp : Option String → Option String → Ordering
  | some first, some second => numeric_sort_cmp first second
  | some _, none => .gt
  | none, some _ => .lt
  | none, none => .eq

theorem expNameCmp_refl (a : Option String) : expNameCmp a a = .eq := by
  cases a <;> simp [expNameCmp, nsc_refl]

theorem expNameCmp_swap (a b : Option String) :
    (expNameCmp a b).swap = expNameCmp b a := by
  cases a <;> cases b <;> simp only [expNameCmp] <;>
    first
      | rfl
      | rw [nsc_swap]

theorem expNameCmp_eq_left {a b : Option String} (h : expNameCmp a b = .eq)
    (c : Option String) : expNameCmp a c = expNameCmp b c := by
  cases a <;> cases b <;> simp [expNameCmp] at h <;> cases c <;>
    simp [expNameCmp]
  exact nsc_eq_left h _

theorem expNameCmp_eq_right {b c : Option String} (h : expNameCmp b c = .eq)
    (a : Option String) : expNameCmp a c = expNameCmp a b := by
  cases b <;> cases c <;> simp [expNameCmp] at h <;> cases a <;>
    simp [expNameCmp]
  exact nsc_eq_right h _

theorem expNameCmp_lt_trans {a b c : Option String}
    (h1 : expNameCmp a b = .lt) (h2 : expNameCmp b c = .lt) :
    expNameCmp a c = .lt := by
  cases a <;> cases b <;> cases c <;> simp_all [expNameCmp]
  exact nsc_lt_trans h1 h2

/-- `Path.numeric_cmp` unfolded into its three chained comparisons. -/
theorem pathCmp_unfold (p q : Path) :
    Path.numeric_cmp p q =
      (if expNameCmp p.exporter_name q.exporter_name ≠ .eq then
        expNameCmp p.exporter_name q.exporter_name
      else if numeric_sort_cmp p.group_name q.group_name ≠ .eq then
        numeric_sort_cmp p.group_name q.group_name
      else numeric_sort_cmp p.resource_name q.resource_name) := by
  cases p with
  | mk pe pg pr =>
    cases q with
    | mk qe qg qr =>
      cases pe <;> cases qe <;> rfl

theorem pathCmp_refl (p : Path) : Path.numeric_cmp p p = .eq := by
  rw [pathCmp_unfold]
  simp [expNameCmp_refl, nsc_refl]

theorem pathCmp_swap (p q : Path) :
    (Path.numeric_cmp p q).swap = Path.numeric_cmp q p := by
  rw [pathCmp_unfold, pathCmp_unfold]
  rw [← expNameCmp_swap p.exporter_name q.exporter_name,
    ← nsc_swap p.group_name q.group_name,
    ← nsc_swap p.resource_name q.resource_name]
  cases expNameCmp p.exporter_name q.exporter_name <;>
    cases numeric_sort_cmp p.group_name q.group_name <;>
    simp [Ordering.swap]

theorem pathCmp_lt_trans {p q r : Path} (h1 : Path.numeric_cmp p q = .lt)
    (h2 : Path.numeric_cmp q r = .lt) : Path.numeric_cmp p r = .lt := by
  rw [pathCmp_unfold] at h1 h2 ⊢
  cases hab : expNameCmp p.exporter_name q.exporter_name with
  | gt => simp [hab] at h1
  | lt =>
    cases hbc : expNameCmp q.exporter_name r.exporter_name with
    | gt => simp [hbc] at h2
    | lt => simp [expNameCmp_lt_trans hab hbc]
    | eq =>
      rw [expNameCmp_eq_right hbc p.exporter_name, hab]
      simp
  | eq =>
    simp only [hab, ne_eq, not_true_eq_false, if_false] at h1
    cases hbc : expNameCmp q.exporter_name r.exporter_name with
    | gt => simp [hbc] at h2
    | lt =>
      rw [expNameCmp_eq_left hab r.exporter_name, hbc]
      simp
    | eq =>
      simp only [hbc, ne_eq, not_true_eq_false, if_false] at h2
      have hac : expNameCmp p.exporter_name r.exporter_name = .eq := by
        rw [expNameCmp_eq_left hab r.exporter_name, hbc]
      simp only [hac, ne_eq, not_true_eq_false, if_false]
      cases hg1 : numeric_sort_cmp p.group_name q.group_name with
      | gt => simp [hg1] at h1
      | lt =>
        cases hg2 : numeric_sort_cmp q.group_name r.group_name with
        | gt => simp [hg2] at h2
        | lt => simp [nsc_lt_trans hg1 hg2]
        | eq =>
          rw [nsc_eq_right hg2 p.group_name, hg1]
          simp
      | eq =>
        simp only [hg1, ne_eq, not_true_eq_false, if_false] at h1
        cases hg2 : numeric_sort_cmp q.group_name r.group_name with
        | gt => simp [hg2] at h2
        | lt =>
          rw [nsc_eq_left hg1 r.group_name, hg2]
          simp
        | eq =>
          simp only [hg2, ne_eq, not_true_eq_false, if_false] at h2
          have hgr : numeric_sort_cmp p.group_name r.group_name = .eq := by
            rw [nsc_eq_left hg1 r.group_name, hg2]
          simp only [hgr, ne_eq, not_true_eq_false, if_false]
          exact nsc_lt_trans h1 h2

/-- C8: path comparison is a number-aware total order (reflexive,
swap-antisymmetric, transitive) applied lexicographically over
(exporter, group, resource), a `None` exporter ordering strictly before
any `Some`: the concrete paths with exporters `None`, `"a"`, `"b"` sort in
that order; with equal exporters the order falls through to group and then
resource name, where the numeral-aware comparison places `"r2"` before
`"r10"`. -/
theorem c8_path_ordering :
    (Path.numeric_cmp ⟨none, "g", "r"⟩ ⟨some "a", "g", "r"⟩ = .lt)
    ∧ (Path.numeric_cmp ⟨some "a", "g", "r"⟩ ⟨some "b", "g", "r"⟩ = .lt)
    ∧ (∀ p q : Path, ∀ e : String, p.exporter_name = none →
        q.exporter_name = some e → Path.numeric_cmp p q = .lt)
    ∧ (∀ p q : Path, p.exporter_name = q.exporter_name →
        Path.numeric_cmp p q =
          if numeric_sort_cmp p.group_name q.group_name ≠ .eq then
            numeric_sort_cmp p.group_name q.group_name
          else numeric_sort_cmp p.resource_name q.resource_name)
    ∧ (numeric_sort_cmp "r2" "r10" = .lt)
    ∧ (Path.numeric_cmp ⟨some "e", "g", "r2"⟩ ⟨some "e", "g", "r10"⟩ = .lt)
    ∧ (∀ p : Path, Path.numeric_cmp p p = .eq)
    ∧ (∀ p q : Path, (Path.numeric_cmp p q).swap = Path.numeric_cmp q p)
    ∧ (∀ p q r : Path, Path.numeric_cmp p q = .lt →
        Path.numeric_cmp q r = .lt → Path.numeric_cmp p r = .lt) := by
  refine ⟨by decide, by decide, ?_, ?_, by decide, by decide,
    pathCmp_refl, pathCmp_swap, fun _ _ _ => pathCmp_lt_trans⟩
  · intro p q e hp hq
    rw [pathCmp_unfold, hp, hq]
    simp [expNameCmp]
  · intro p q h
    rw [pathCmp_unfold, h, expNameCmp_refl]
    simp

/-- Witness for C8: the none-before-some and fall-through parts applied at
concrete paths. -/
theorem c8_path_ordering_witness :
    Path.numeric_cmp ⟨none, "g1", "u"⟩ ⟨some "x", "g1", "u"⟩ = .lt ∧
    Path.numeric_cmp ⟨some "e", "h", "r2"⟩ ⟨some "e", "h", "r10"⟩ =
      (if numeric_sort_cmp "h" "h" ≠ .eq then numeric_sort_cmp "h" "h"
       else numeric_sort_cmp "r2" "r10") :=
  ⟨c8_path_ordering.2.2.1 ⟨none, "g1", "u"⟩ ⟨some "x", "g1", "u"⟩ "x" rfl rfl,
   c8_path_ordering.2.2.2.1 ⟨some "e", "h", "r2"⟩ ⟨some "e", "h", "r10"⟩ rfl⟩

/-- A concrete transport environment for instantiating theorems with
hypotheses: every call succeeds trivially. -/
def sampleEnv : Env where
  clientName := "host/user"
  connectOutcome := fun _ => .ok
  getPlaces := .ok []
  getReservations := .ok []
  acquirePlace := fun _ => .ok ()
  releasePlace := fun _ => .ok ()
  addPlace := fun _ => .ok ()
  deletePlace := fun _ => .ok ()
  addPlaceMatch := fun _ _ => .ok ()
  deletePlaceMatch := fun _ _ => .ok ()
  setPlaceTags := fun _ _ => .ok ()
  cancelReservation := fun _ => .ok ()

/-- C1: the error-severity classifier applied while Connected: a
transport-level failure, or a remote status of Unavailable or
DeadlineExceeded, emits a Disconnected event carrying a Critical-labeled
error and moves the session to Disconnected; a message-conversion failure
or any other remote status code emits a NonCriticalError event and the
session stays Connected; a remote status of Ok emits no event and leaves
the session unchanged. -/
theorem c1_error_severity_classifier :
    ∀ (s : SyncId) (d : String) (m : ConversionError) (code : TonicCode),
    (handle_grpc_client_error (.Connected s) (.TonicTransport d) =
      ([.Disconnected (some ⟨.Critical, "Transport failure",
          GrpcClientError.debugFmt (.TonicTransport d)⟩)], .Disconnected))
    ∧ (handle_grpc_client_error (.Connected s) (.TonicStatus .Unavailable d) =
      ([.Disconnected (some ⟨.Critical, "Non-recoverable tonic error status",
          GrpcClientError.debugFmt (.TonicStatus .Unavailable d)⟩)],
        .Disconnected))
    ∧ (handle_grpc_client_error (.Connected s) (.TonicStatus .DeadlineExceeded d) =
      ([.Disconnected (some ⟨.Critical, "Non-recoverable tonic error status",
          GrpcClientError.debugFmt (.TonicStatus .DeadlineExceeded d)⟩)],
        .Disconnected))
    ∧ (handle_grpc_client_error (.Connected s) (.MsgConversion m) =
      ([.NonCriticalError ⟨.NonCritical, "Message conversion", m.msg⟩],
        .Connected s))
    ∧ (code ≠ .Ok → code ≠ .Unavailable → code ≠ .DeadlineExceeded →
        handle_grpc_client_error (.Connected s) (.TonicStatus code d) =
          ([.NonCriticalError ⟨.NonCritical, "Tonic error status",
              GrpcClientError.debugFmt (.TonicStatus code d)⟩], .Connected s))
    ∧ (handle_grpc_client_error (.Connected s) (.TonicStatus .Ok d) =
      ([], .Connected s)) := by
  intro s d m code
  refine ⟨rfl, rfl, rfl, rfl, ?_, rfl⟩
  intro h1 h2 h3
  cases code <;> simp_all [handle_grpc_client_error]

/-- Witness for C1: the other-remote-status branch applied to
InvalidArgument from a Connected session. -/
theorem c1_error_severity_classifier_witness :
    handle_grpc_client_error (.Connected ⟨2⟩) (.TonicStatus .InvalidArgument "x") =
      ([.NonCriticalError ⟨.NonCritical, "Tonic error status",
          GrpcClientError.debugFmt (.TonicStatus .InvalidArgument "x")⟩],
        .Connected ⟨2⟩) :=
  (c1_error_severity_classifier ⟨2⟩ "x" ⟨"m"⟩ .InvalidArgument).2.2.2.2.1
    (by decide) (by decide) (by decide)

/-- C6: a Connect command with an empty or whitespace-only address is
rejected before any network call: while Disconnected it yields exactly one
Disconnected event with a non-empty error and the session remains
Disconnected; while Connected it emits a NonCriticalError event and causes
no state change; in neither case is a facade call performed or a frame
sent. -/
theorem c6_whitespace_connect :
    ∀ (env : Env) (address : String) (s : SyncId),
    isBlank address = true →
    (step env .Disconnected (.cmd (.Connect address)) =
      ⟨[.Disconnected (some ⟨.NonCritical, fl_connection_msg_invalid_input,
          "Input must not be empty"⟩)], .Disconnected, [], []⟩)
    ∧ ("Input must not be empty" ≠ "")
    ∧ (fl_connection_msg_invalid_input ≠ "")
    ∧ (step env (.Connected s) (.cmd (.Connect address)) =
      ⟨[.NonCriticalError ⟨.NonCritical, fl_connection_msg_invalid_input,
          "Input: '" ++ address⟩], .Connected s, [], []⟩) := by
  intro env address s h
  refine ⟨?_, by decide, by simp [fl_connection_msg_invalid_input], ?_⟩ <;>
    simp [step, h]

/-- Witness for C6: the whitespace address from the spec example. -/
theorem c6_whitespace_connect_witness :
    step sampleEnv .Disconnected (.cmd (.Connect "   ")) =
      ⟨[.Disconnected (some ⟨.NonCritical, fl_connection_msg_invalid_input,
          "Input must not be empty"⟩)], .Disconnected, [], []⟩ :=
  (c6_whitespace_connect sampleEnv "   " ⟨1⟩ (by decide)).1

/-- C7: every command other than Connect received while Disconnected is
ignored entirely: no event, no state transition, no facade call, no frame
sent — only a Connect command has any effect while Disconnected. -/
theorem c7_disconnected_rejects_commands :
    ∀ (env : Env) (m : ConnectionMsg),
    (∀ a, m ≠ .Connect a) →
    step env .Disconnected (.cmd m) = ⟨[], .Disconnected, [], []⟩ := by
  intro env m h
  cases m with
  | Connect a => exact absurd rfl (h a)
  | _ => rfl

/-- Witness for C7: an AcquirePlace command while Disconnected. -/
theorem c7_disconnected_rejects_commands_witness :
    step sampleEnv .Disconnected (.cmd (.AcquirePlace "p1")) =
      ⟨[], .Disconnected, [], []⟩ :=
  c7_disconnected_rejects_commands sampleEnv (.AcquirePlace "p1")
    (fun a h => by cases h)

/- `ReceiveReady` is emitted only at startup: no select-loop step produces
it. -/

theorem updateEvent_not_rr (u : UpdateResponse) :
    (updateEvent u).isReceiveReady = false := by
  cases u <;> rfl

theorem handle_out_msg_not_rr (m : ClientOutMsg) :
    (handle_out_msg m).countP (fun e => e.isReceiveReady) = 0 := by
  rw [List.countP_eq_zero]
  intro e he
  rcases List.mem_map.mp he with ⟨u, _, rfl⟩
  simp [updateEvent_not_rr]

theorem hgce_not_rr (st : State) (e : GrpcClientError) :
    ((handle_grpc_client_error st e).1).countP (fun ev => ev.isReceiveReady) = 0 := by
  rcases e with d | ⟨code, d⟩ | m
  · simp [handle_grpc_client_error, ConnectionEvent.isReceiveReady]
  · cases code <;>
      simp [handle_grpc_client_error, ConnectionEvent.isReceiveReady]
  · simp [handle_grpc_client_error, ConnectionEvent.isReceiveReady]

theorem stepConnectAttempt_not_rr (env : Env) (st : State) (a : String) :
    ((stepConnectAttempt env st a).events).countP (fun e => e.isReceiveReady) = 0 := by
  cases h : env.connectOutcome a <;>
    simp [stepConnectAttempt, h, connect, ConnectionEvent.isReceiveReady]

theorem stepUnary_not_rr (st : State) (call : FacadeCall)
    (res : Except GrpcClientError Unit) :
    ((stepUnary st call res).events).countP (fun e => e.isReceiveReady) = 0 := by
  cases res with
  | ok _ => simp [stepUnary]
  | error e =>
    simpa [stepUnary] using hgce_not_rr st e

theorem stepGetReservations_not_rr (env : Env) (st : State) :
    ((stepGetReservations env st).events).countP (fun e => e.isReceiveReady) = 0 := by
  cases h : env.getReservations with
  | ok rs => simp [stepGetReservations, h, ConnectionEvent.isReceiveReady]
  | error e =>
    simpa [stepGetReservations, h] using hgce_not_rr st e

theorem step_not_rr (env : Env) (st : State) (i : SessionInput) :
    ((step env st i).events).countP (fun e => e.isReceiveReady) = 0 := by
  cases st with
  | Disconnected =>
    cases i with
    | cmd m =>
      cases m with
      | Connect a =>
        by_cases h : isBlank a = true
        · simp [step, h, ConnectionEvent.isReceiveReady]
        · rw [Bool.not_eq_true] at h
          simpa [step, h] using stepConnectAttempt_not_rr env .Disconnected a
      | _ => simp [step]
    | frameOk _ => simp [step]
    | frameErr _ => simp [step]
    | tick => simp [step]
  | Connected sid =>
    cases i with
    | cmd m =>
      cases m with
      | Connect a =>
        by_cases h : isBlank a = true
        · simp [step, h, ConnectionEvent.isReceiveReady]
        · rw [Bool.not_eq_true] at h
          simpa [step, h] using stepConnectAttempt_not_rr env (.Connected sid) a
      | Disconnect => simp [step, ConnectionEvent.isReceiveReady]
      | Sync => simp [step]
      | GetPlaces =>
        cases h : env.getPlaces with
        | ok ps => simp [step, h, ConnectionEvent.isReceiveReady]
        | error e => simpa [step, h] using hgce_not_rr (.Connected sid) e
      | AcquirePlace name =>
        by_cases h : isBlank name = true
        · simp [step, h, invalidInputEvent, ConnectionEvent.isReceiveReady]
        · rw [Bool.not_eq_true] at h
          simpa [step, h] using
            stepUnary_not_rr (.Connected sid) (.acquirePlace name) (env.acquirePlace name)
      | ReleasePlace name =>
        by_cases h : isBlank name = true
        · simp [step, h, invalidInputEvent, ConnectionEvent.isReceiveReady]
        · rw [Bool.not_eq_true] at h
          simpa [step, h] using
            stepUnary_not_rr (.Connected sid) (.releasePlace name) (env.releasePlace name)
      | AddPlace name =>
        by_cases h : isBlank name = true
        · simp [step, h, invalidInputEvent, ConnectionEvent.isReceiveReady]
        · rw [Bool.not_eq_true] at h
          simpa [step, h] using
            stepUnary_not_rr (.Connected sid) (.addPlace name) (env.addPlace name)
      | DeletePlace name =>
        by_cases h : isBlank name = true
        · simp [step, h, invalidInputEvent, ConnectionEvent.isReceiveReady]
        · rw [Bool.not_eq_true] at h
          simpa [step, h] using
            stepUnary_not_rr (.Connected sid) (.deletePlace name) (env.deletePlace name)
      | AddPlaceMatch place_name pat =>
        by_cases h : (isBlank place_name || isBlank pat) = true
        · simp [step, h, invalidInputEvent, ConnectionEvent.isReceiveReady]
        · rw [Bool.not_eq_true] at h
          simpa [step, h] using
            stepUnary_not_rr (.Connected sid) (.addPlaceMatch place_name pat)
              (env.addPlaceMatch place_name pat)
      | DeletePlaceMatch place_name pat =>
        by_cases h : (isBlank place_name || isBlank pat) = true
        · simp [step, h, invalidInputEvent, ConnectionEvent.isReceiveReady]
        · rw [Bool.not_eq_true] at h
          simpa [step, h] using
            stepUnary_not_rr (.Connected sid) (.deletePlaceMatch place_name pat)
              (env.deletePlaceMatch place_name pat)
      | AddPlaceTag place_name tag =>
        by_cases h : (isBlank place_name || isBlank tag.1 || isBlank tag.2) = true
        · simp [step, h, invalidInputEvent, ConnectionEvent.isReceiveReady]
        · rw [Bool.not_eq_true] at h
          simpa [step, h] using
            stepUnary_not_rr (.Connected sid) (.setPlaceTags place_name [tag])
              (env.setPlaceTags place_name [tag])
      | DeletePlaceTag place_name tag =>
        by_cases h : (isBlank place_name || isBlank tag) = true
        · simp [step, h, invalidInputEvent, ConnectionEvent.isReceiveReady]
        · rw [Bool.not_eq_true] at h
          simpa [step, h] using
            stepUnary_not_rr (.Connected sid) (.setPlaceTags place_name [(tag, "")])
              (env.setPlaceTags place_name [(tag, "")])
      | GetReservations =>
        simpa [step] using stepGetReservations_not_rr env (.Connected sid)
      | CancelReservation token =>
        by_cases h : isBlank token = true
        · simp [step, h, invalidInputEvent, ConnectionEvent.isReceiveReady]
        · rw [Bool.not_eq_true] at h
          cases h2 : env.cancelReservation token with
          | error e => simpa [step, h, h2] using hgce_not_rr (.Connected sid) e
          | ok _ =>
            simpa [step, h, h2] using stepGetReservations_not_rr env (.Connected sid)
    | frameOk pm =>
      cases h : ClientOutMsg.tryFrom pm with
      | error e => simp [step, h]
      | ok m => simpa [step, h] using handle_out_msg_not_rr m
    | frameErr _ => simp [step]
    | tick => simpa [step] using stepGetReservations_not_rr env (.Connected sid)

theorem run_not_rr (env : Env) :
    ∀ (inputs : List SessionInput) (st : State),
    (run env st inputs).countP (fun e => e.isReceiveReady) = 0
  | [], _ => by simp [run]
  | i :: is, st => by
    simp [run, List.countP_append, step_not_rr, run_not_rr env is]

theorem kickoff_rr_once (env : Env) (inputs : List SessionInput) :
    (kickoffTrace env inputs).countP (fun e => e.isReceiveReady) = 1 := by
  rw [kickoffTrace, List.countP_cons, run_not_rr env inputs State.Disconnected]
  rfl

/-- C2: a successful Connect enqueues exactly the four handshake frames on
the outbound half, in the fixed order StartupDone, Subscribe(AllPlaces),
Subscribe(AllResources), Sync(id=1) (the inbound half only exists after
they are enqueued, and is consumed in later steps); the fresh session
counter stands at 2, so a user Sync command then sends id 2; sync ids are
monotone under the saturating increment; every new session starts from the
reset counter (id 1), also when connecting from a Connected session. -/
theorem c2_handshake_and_sync_ids :
    ∀ (env : Env) (a : String) (s0 : SyncId),
    isBlank a = false → env.connectOutcome a = .ok →
    ((step env .Disconnected (.cmd (.Connect a))).sent =
      [.StartupDone ⟨"1", env.clientName⟩,
       .Subscribe ⟨none, .AllPlaces true⟩,
       .Subscribe ⟨none, .AllResources true⟩,
       .Sync ⟨1⟩])
    ∧ ((step env .Disconnected (.cmd (.Connect a))).state = .Connected ⟨2⟩)
    ∧ ((step env (.Connected s0) (.cmd (.Connect a))).sent =
      [.StartupDone ⟨"1", env.clientName⟩,
       .Subscribe ⟨none, .AllPlaces true⟩,
       .Subscribe ⟨none, .AllResources true⟩,
       .Sync ⟨1⟩])
    ∧ ((step env (.Connected s0) (.cmd (.Connect a))).state = .Connected ⟨2⟩)
    ∧ ((step env (.Connected ⟨2⟩) (.cmd .Sync)).sent = [.Sync ⟨2⟩])
    ∧ ((step env (.Connected ⟨2⟩) (.cmd .Sync)).state = .Connected ⟨3⟩)
    ∧ (∀ s : SyncId, s.id ≤ U64_MAX →
        s.next.1 ≤ s.next.2.next.1 ∧ s.next.2.id ≤ U64_MAX)
    ∧ (∀ s : SyncId, s.next.2.id = min (s.id + 1) U64_MAX) := by
  intro env a s0 h1 h2
  refine ⟨?_, ?_, ?_, ?_, ?_, ?_, ?_, fun s => rfl⟩
  · simp [step, h1, h2, stepConnectAttempt, connect, SyncId.default, SyncId.next]
  · simp [step, h1, h2, stepConnectAttempt, connect, SyncId.default, SyncId.next,
      U64_MAX]
  · simp [step, h1, h2, stepConnectAttempt, connect, SyncId.default, SyncId.next]
  · simp [step, h1, h2, stepConnectAttempt, connect, SyncId.default, SyncId.next,
      U64_MAX]
  · simp [step, SyncId.next]
  · simp [step, SyncId.next, U64_MAX]
  · intro s hs
    simp only [SyncId.next, U64_MAX] at *
    constructor <;> omega

/-- Witness for C2: the handshake produced by a successful Connect in the
sample environment. -/
theorem c2_handshake_and_sync_ids_witness :
    (step sampleEnv .Disconnected (.cmd (.Connect "addr"))).sent =
      [.StartupDone ⟨"1", sampleEnv.clientName⟩,
       .Subscribe ⟨none, .AllPlaces true⟩,
       .Subscribe ⟨none, .AllResources true⟩,
       .Sync ⟨1⟩] :=
  (c2_handshake_and_sync_ids sampleEnv "addr" ⟨1⟩ (by decide) rfl).1

/-- C3: a successful Connect emits Connected{address} and then, through
the GetReservations issued at the first pending tick of the reservations
interval upon reaching Connected, a Reservations event, in that order;
ReceiveReady is the first event of the session trace and occurs exactly
once in every trace. -/
theorem c3_connect_event_order :
    ∀ (env : Env) (a : String) (rs : List Reservation),
    isBlank a = false → env.connectOutcome a = .ok →
    env.getReservations = .ok rs →
    (kickoffTrace env [.cmd (.Connect a), .tick] =
      [.ReceiveReady, .Connected a, .Reservations rs])
    ∧ ((step env (.Connected (connect env.clientName).2) .tick).calls =
        [.getReservations])
    ∧ (∀ (env2 : Env) (inputs : List SessionInput),
        (kickoffTrace env2 inputs).countP (fun e => e.isReceiveReady) = 1) := by
  intro env a rs h1 h2 h3
  refine ⟨?_, ?_, fun env2 inputs => kickoff_rr_once env2 inputs⟩
  · simp [kickoffTrace, run, step, h1, h2, h3, stepConnectAttempt,
      stepGetReservations, connect, SyncId.default, SyncId.next]
  · cases h : env.getReservations with
    | ok r2 => simp [step, stepGetReservations, h]
    | error e => rw [h3] at h; cases h

/-- Witness for C3: a successful Connect followed by the first tick in the
sample environment. -/
theorem c3_connect_event_order_witness :
    kickoffTrace sampleEnv [.cmd (.Connect "addr"), .tick] =
      [.ReceiveReady, .Connected "addr", .Reservations []] :=
  (c3_connect_event_order sampleEnv "addr" [] (by decide) rfl rfl).1

/- Example inbound frames used to instantiate the stream-policy claims. -/

/-- A wire update whose oneof kind is absent (fails conversion). -/
def exBadUpdate : ProtoUpdateResponse := ⟨none⟩

/-- A well-formed wire update (a place deletion). -/
def exGoodUpdate : ProtoUpdateResponse := ⟨some (.DelPlace "p1")⟩

/-- A frame that fails conversion. -/
def exBadFrame : ProtoClientOutMessage := ⟨none, [exBadUpdate]⟩

/-- A frame that converts successfully. -/
def exGoodFrame : ProtoClientOutMessage := ⟨none, [exGoodUpdate]⟩

/-- A frame mixing a well-formed and a malformed update. -/
def exMixedFrame : ProtoClientOutMessage := ⟨none, [exGoodUpdate, exBadUpdate]⟩

/-- C5: an inbound frame that fails conversion is discarded with no event,
no state change, no call and no outbound frame, and the stream keeps
delivering: a later well-formed frame is still processed; a successfully
converted frame has its update list re-emitted in order, each update as
exactly one GUI event of the matching kind, with no reordering or
batching. -/
theorem c5_inbound_frame_policy :
    ∀ (env : Env) (s : SyncId) (pmB pmG : ProtoClientOutMessage)
      (err : ConversionError) (m : ClientOutMsg),
    ClientOutMsg.tryFrom pmB = .error err →
    ClientOutMsg.tryFrom pmG = .ok m →
    (step env (.Connected s) (.frameOk pmB) = ⟨[], .Connected s, [], []⟩)
    ∧ ((step env (.Connected s) (.frameOk pmG)).events =
        m.updates.map updateEvent)
    ∧ ((step env (.Connected s) (.frameOk pmG)).state = .Connected s)
    ∧ (run env (.Connected s) [.frameOk pmB, .frameOk pmG] =
        m.updates.map updateEvent)
    ∧ (∀ r, updateEvent (.Resource r) = .Resource r)
    ∧ (∀ p, updateEvent (.DeleteResource p) = .DeleteResource p)
    ∧ (∀ p, updateEvent (.Place p) = .Place p)
    ∧ (∀ n, updateEvent (.DeletePlace n) = .DeletePlace n) := by
  intro env s pmB pmG err m hB hG
  refine ⟨by simp [step, hB], by simp [step, hG, handle_out_msg],
    by simp [step, hG], ?_, fun r => rfl, fun p => rfl, fun p => rfl,
    fun n => rfl⟩
  simp [run, step, hB, hG, handle_out_msg]

/-- Witness for C5: a malformed frame followed by a well-formed one. -/
theorem c5_inbound_frame_policy_witness :
    run sampleEnv (.Connected ⟨2⟩) [.frameOk exBadFrame, .frameOk exGoodFrame] =
      (⟨none, [.DeletePlace "p1"]⟩ : ClientOutMsg).updates.map updateEvent :=
  (c5_inbound_frame_policy sampleEnv ⟨2⟩ exBadFrame exGoodFrame
    ⟨"UpdateResponse kind is None"⟩ ⟨none, [.DeletePlace "p1"]⟩ rfl rfl).2.2.2.1

/-- An element-wise fallible collection fails whenever one element
fails. -/
theorem mapExcept_error_of_mem {α β ε : Type} (f : α → Except ε β)
    {l : List α} {x : α} {e : ε} (hx : x ∈ l) (he : f x = .error e) :
    ∃ e2, mapExcept f l = .error e2 := by
  induction l with
  | nil => cases hx
  | cons a as ih =>
    rcases List.mem_cons.mp hx with rfl | hx2
    · exact ⟨e, by simp [mapExcept, he]⟩
    · cases hf : f a with
      | error e3 => exact ⟨e3, by simp [mapExcept, hf]⟩
      | ok y =>
        rcases ih hx2 with ⟨e2, h2⟩
        exact ⟨e2, by simp [mapExcept, hf, h2]⟩

/-- A frame containing any unconvertible update fails conversion as a
whole. -/
theorem clientOutMsg_tryFrom_error (pm : ProtoClientOutMessage)
    (u : ProtoUpdateResponse) (e : ConversionError) (hu : u ∈ pm.updates)
    (he : UpdateResponse.tryFrom u = .error e) :
    ∃ e2, ClientOutMsg.tryFrom pm = .error e2 := by
  rcases mapExcept_error_of_mem UpdateResponse.tryFrom hu he with ⟨e2, h2⟩
  refine ⟨e2, ?_⟩
  cases hs : pm.sync <;> simp [ClientOutMsg.tryFrom, hs, Sync.tryFrom, h2]

/-- C10: when any update of an inbound frame fails conversion, conversion
of the whole ClientOutMsg fails, so the session discards the entire frame:
every update in it, including well-formed ones, produces no GUI event —
the discard granularity of the lossy stream policy is the whole frame. -/
theorem c10_frame_discard_granularity :
    ∀ (env : Env) (s : SyncId) (pm : ProtoClientOutMessage)
      (u : ProtoUpdateResponse) (e : ConversionError),
    u ∈ pm.updates → UpdateResponse.tryFrom u = .error e →
    (∃ e2, ClientOutMsg.tryFrom pm = .error e2)
    ∧ (step env (.Connected s) (.frameOk pm) = ⟨[], .Connected s, [], []⟩) := by
  intro env s pm u e hu he
  obtain ⟨e2, h2⟩ := clientOutMsg_tryFrom_error pm u e hu he
  exact ⟨⟨e2, h2⟩, by simp [step, h2]⟩

/-- Witness for C10: a frame holding a well-formed place deletion and a
kindless update is dropped whole. -/
theorem c10_frame_discard_granularity_witness :
    step sampleEnv (.Connected ⟨2⟩) (.frameOk exMixedFrame) =
      ⟨[], .Connected ⟨2⟩, [], []⟩ :=
  (c10_frame_discard_granularity sampleEnv ⟨2⟩ exMixedFrame exBadUpdate
    ⟨"UpdateResponse kind is None"⟩ (List.Mem.tail _ (List.Mem.head _)) rfl).2

/- Round-trip of map values and resources (claim C9). -/

mutual

theorem MapValue.tryFrom_toProto :
    ∀ v : MapValue, MapValue.tryFrom (MapValue.toProto v) = .ok v
  | .bool _ => rfl
  | .int _ => rfl
  | .uint _ => rfl
  | .float _ => rfl
  | .string _ => rfl
  | .array vs => by
    simp [MapValue.toProto, MapValue.tryFrom,
      MapValue.listTryFrom_listToProto vs]

theorem MapValue.listTryFrom_listToProto :
    ∀ vs : List MapValue,
    MapValue.listTryFrom (MapValue.listToProto vs) = .ok vs
  | [] => rfl
  | v :: vs => by
    simp [MapValue.listToProto, MapValue.listTryFrom,
      MapValue.tryFrom_toProto v, MapValue.listTryFrom_listToProto vs]

end

/-- Every wire value produced by `MapValue.toProto` has a present kind. -/
theorem toProto_kind_isSome (v : MapValue) :
    (MapValue.toProto v).kind.isSome = true := by
  cases v <;> rfl

/-- The kind-presence filter keeps every entry of a map produced by
`Resource.toProto`. -/
theorem filter_kind_map (l : List (String × MapValue)) :
    (l.map (fun q => (q.1, MapValue.toProto q.2))).filter
        (fun q => q.2.kind.isSome) =
      l.map (fun q => (q.1, MapValue.toProto q.2)) := by
  rw [List.filter_eq_self]
  intro a ha
  rcases List.mem_map.mp ha with ⟨q, _, rfl⟩
  simp [toProto_kind_isSome]

/-- Element-wise conversion of a wire map produced from a local map
recovers the local map. -/
theorem mapExcept_entry_roundtrip (l : List (String × MapValue)) :
    mapExcept (fun q => match MapValue.tryFrom q.2 with
        | .error e => .error e
        | .ok v => .ok (q.1, v))
      (l.map (fun q => (q.1, MapValue.toProto q.2))) = .ok l := by
  induction l with
  | nil => rfl
  | cons q qs ih =>
    simp [mapExcept, MapValue.tryFrom_toProto, ih]

/-- `Place.tryFrom` never fails: the element conversions of the match list
are infallible. -/
theorem place_tryFrom_ok (pp : ProtoPlace) :
    Place.tryFrom pp = .ok
      { name := pp.name
        aliases := pp.aliases
        comment := pp.comment
        tags := pp.tags
        «matches» := pp.«matches».map
          (fun m => ⟨m.exporter, m.group, m.cls, m.name, m.rename⟩)
        acquired := pp.acquired.filter (fun s => !s.isEmpty)
        acquired_resources := pp.acquired_resources
        allowed := pp.allowed
        created := pp.created
        changed := pp.changed
        reservation := pp.reservation } := by
  have h : ∀ ms : List ProtoResourceMatch,
      mapExcept ResourceMatch.tryFrom ms = .ok
        (ms.map (fun m => ⟨m.exporter, m.group, m.cls, m.name, m.rename⟩)) := by
    intro ms
    induction ms with
    | nil => rfl
    | cons m ms ih => simp [mapExcept, ResourceMatch.tryFrom, ih]
  simp [Place.tryFrom, h]

/-- C9: converting a local Resource (nested array-typed map values
included) to wire form and back yields the identical Resource; and for
Place, a wire acquired value of the empty string is normalized on
conversion to the local value None, identically to an absent wire
value. -/
theorem c9_wire_roundtrip :
    (∀ r : Resource, Resource.tryFrom (Resource.toProto r) = .ok r)
    ∧ (∀ pp : ProtoPlace, pp.acquired = some "" →
        Place.tryFrom pp =
          Place.tryFrom ⟨pp.name, pp.aliases, pp.comment, pp.tags,
            pp.«matches», none, pp.acquired_resources, pp.allowed,
            pp.created, pp.changed, pp.reservation⟩)
    ∧ (∀ pp : ProtoPlace, pp.acquired = some "" →
        ∃ pl, Place.tryFrom pp = .ok pl ∧ pl.acquired = none)
    ∧ (∀ pp : ProtoPlace, pp.acquired = none →
        ∃ pl, Place.tryFrom pp = .ok pl ∧ pl.acquired = none) := by
  refine ⟨?_, ?_, ?_, ?_⟩
  · intro r
    simp [Resource.toProto, Resource.tryFrom, Path.toProto, Path.tryFrom,
      filter_kind_map, mapExcept_entry_roundtrip]
  · intro pp h
    rw [place_tryFrom_ok, place_tryFrom_ok]
    simp [h, Option.filter, show ("" : String).isEmpty = true from by decide]
  · intro pp h
    exact ⟨_, place_tryFrom_ok pp, by
      simp [h, Option.filter, show ("" : String).isEmpty = true from by decide]⟩
  · intro pp h
    exact ⟨_, place_tryFrom_ok pp, by simp [h, Option.filter]⟩

/-- Witness for C9: a resource with a nested array-typed map value
round-trips; a place with an empty-string wire acquired field converts to
local None. -/
theorem c9_wire_roundtrip_witness :
    (Resource.tryFrom (Resource.toProto
      ⟨⟨some "e", "g", "r"⟩, "cls",
        [("k", .array [.uint 1, .array [.string "x"]])],
        [("j", .bool true)], "owner", true⟩) = .ok
      ⟨⟨some "e", "g", "r"⟩, "cls",
        [("k", .array [.uint 1, .array [.string "x"]])],
        [("j", .bool true)], "owner", true⟩)
    ∧ (∃ pl, Place.tryFrom
        ⟨"p", [], "", [], [], some "", [], [], ⟨0⟩, ⟨0⟩, none⟩ = .ok pl ∧
        pl.acquired = none) :=
  ⟨c9_wire_roundtrip.1 _,
   c9_wire_roundtrip.2.2.1 ⟨"p", [], "", [], [], some "", [], [], ⟨0⟩, ⟨0⟩, none⟩ rfl⟩

/- Conversion strictness and its one exception (claim C4). -/

/-- A wire resource whose params map holds one entry with an absent kind
variant, alongside a well-formed path. -/
def exKindlessEntryResource : ProtoResource :=
  ⟨some ⟨none, "g", "r"⟩, "cls", [("k", ProtoMapValue.mk none)], [], "", true⟩

/-- Counterexample to C4 as stated: a params map entry whose required kind
variant is absent does NOT fail `Resource::try_from`; the entry is
silently filtered out and conversion succeeds with a partial map (the
input had one params entry, the output has none). -/
theorem c4_counterexample_kindless_entry_dropped :
    Resource.tryFrom exKindlessEntryResource =
      .ok ⟨⟨none, "g", "r"⟩, "cls", [], [], "", true⟩
    ∧ exKindlessEntryResource.params.length = 1 := by
  constructor <;> rfl

/-- A bad element inside a wire array payload fails the whole array
conversion. -/
theorem listTryFrom_error_of_mem {vs : List ProtoMapValue}
    {v : ProtoMapValue} {e : ConversionError} (hv : v ∈ vs)
    (he : MapValue.tryFrom v = .error e) :
    ∃ e2, MapValue.listTryFrom vs = .error e2 := by
  induction vs with
  | nil => cases hv
  | cons a as ih =>
    rcases List.mem_cons.mp hv with rfl | hv2
    · exact ⟨e, by simp [MapValue.listTryFrom, he]⟩
    · cases hf : MapValue.tryFrom a with
      | error e3 => exact ⟨e3, by simp [MapValue.listTryFrom, hf]⟩
      | ok y =>
        rcases ih hv2 with ⟨e2, h2⟩
        exact ⟨e2, by simp [MapValue.listTryFrom, hf, h2]⟩

/-- C4 amended: wire-to-local conversion is element-wise and a single bad
element fails the whole conversion for arrays, for update lists, for map
entries whose kind variant is present, and for a missing required nested
message — EXCEPT that Resource params/extra map entries whose kind variant
is absent are silently filtered out before conversion, yielding a partial
best-effort map instead of a ConversionError. -/
theorem c4_elementwise_conversion_amended :
    (∀ (cls : String) (ps ex : List (String × ProtoMapValue))
       (acq : String) (av : Bool),
      Resource.tryFrom ⟨none, cls, ps, ex, acq, av⟩ =
        .error ⟨"Resoure path is None"⟩)
    ∧ (∀ (vs : List ProtoMapValue) (v : ProtoMapValue) (e : ConversionError),
        v ∈ vs → MapValue.tryFrom v = .error e →
        ∃ e2, MapValue.tryFrom (.mk (some (.ArrayValue (.mk vs)))) = .error e2)
    ∧ (∀ (pr : ProtoResource) (k : String) (v : ProtoMapValue)
         (e : ConversionError),
        (k, v) ∈ pr.params → v.kind.isSome = true →
        MapValue.tryFrom v = .error e →
        ∃ e2, Resource.tryFrom pr = .error e2)
    ∧ (∀ (pm : ProtoClientOutMessage) (u : ProtoUpdateResponse)
         (e : ConversionError),
        u ∈ pm.updates → UpdateResponse.tryFrom u = .error e →
        ∃ e2, ClientOutMsg.tryFrom pm = .error e2)
    ∧ (∀ (path : Option ProtoPath) (cls : String)
         (ps ex : List (String × ProtoMapValue)) (acq : String) (av : Bool),
        Resource.tryFrom ⟨path, cls, ps, ex, acq, av⟩ =
          Resource.tryFrom ⟨path, cls,
            ps.filter (fun q => q.2.kind.isSome),
            ex.filter (fun q => q.2.kind.isSome), acq, av⟩) := by
  refine ⟨fun cls ps ex acq av => rfl, ?_, ?_, clientOutMsg_tryFrom_error, ?_⟩
  · intro vs v e hv he
    rcases listTryFrom_error_of_mem hv he with ⟨e2, h2⟩
    exact ⟨e2, by simp [MapValue.tryFrom, h2]⟩
  · intro pr k v e hkv hsome he
    cases hp : pr.path with
    | none =>
      exact ⟨⟨"Resoure path is None"⟩, by simp [Resource.tryFrom, hp]⟩
    | some p =>
      have hmem : (k, v) ∈ pr.params.filter (fun q => q.2.kind.isSome) :=
        List.mem_filter.mpr ⟨hkv, hsome⟩
      have hf : (fun (q : String × ProtoMapValue) =>
          match MapValue.tryFrom q.2 with
          | .error e => (.error e : Except ConversionError (String × MapValue))
          | .ok w => .ok (q.1, w)) (k, v) = .error e := by
        simp [he]
      obtain ⟨e2, h2⟩ := mapExcept_error_of_mem
        (fun (q : String × ProtoMapValue) =>
          match MapValue.tryFrom q.2 with
          | .error e => (.error e : Except ConversionError (String × MapValue))
          | .ok w => .ok (q.1, w)) hmem hf
      exact ⟨e2, by simp [Resource.tryFrom, hp, Path.tryFrom, h2]⟩
  · intro path cls ps ex acq av
    cases path with
    | none => rfl
    | some p =>
      simp [Resource.tryFrom, List.filter_filter]

/-- Witness for C4 amended: a params entry with a present kind but a bad
nested array element fails the whole conversion of a concrete resource. -/
theorem c4_elementwise_conversion_amended_witness :
    ∃ e2, Resource.tryFrom
      ⟨some ⟨none, "g", "r"⟩, "cls",
        [("k", ProtoMapValue.mk (some (.ArrayValue (.mk
          [ProtoMapValue.mk none]))))], [], "", true⟩ = .error e2 :=
  c4_elementwise_conversion_amended.2.2.1
    ⟨some ⟨none, "g", "r"⟩, "cls",
      [("k", ProtoMapValue.mk (some (.ArrayValue (.mk
        [ProtoMapValue.mk none]))))], [], "", true⟩
    "k" (ProtoMapValue.mk (some (.ArrayValue (.mk [ProtoMapValue.mk none]))))
    ⟨"MapValue kind is None"⟩ (List.Mem.head _) rfl rfl

end LabgridUI
